import Mathlib

/-!
Shallow embedding of `src/vlc-midi-control.py` (al31h/vlc-midi-control).

The Python source is a single script.  Its pure logic — setlist parsing,
path resolution, MIDI decoding, and the transport handling performed in
the body of `main`'s polling loop — is translated here into executable
Lean definitions.  Side effects are made explicit:

* console `print` calls and calls into the VLC player become values of
  the `PlayerAction` trace type;
* filesystem existence checks (`os.path.isfile`) become a boolean
  oracle `fileExists` carried in the environment;
* a Python exception escaping to a surrounding `except` clause is
  modelled with `Option`/an explicit `abort` result.

String primitives (`str.strip`, `str.split`, `int(...)`) are modelled on
character lists so that every definition kernel-evaluates on concrete
input.  Paths follow POSIX semantics (`os.path.isabs`, `os.path.join`,
`os.path.splitext` on a system whose separator is `/`).
-/

/-- Model of Python `str.strip()`: drop leading and trailing whitespace. -/
def py_strip (s : String) : String :=
  ⟨(((s.data.dropWhile Char.isWhitespace).reverse).dropWhile Char.isWhitespace).reverse⟩

/-- Split a character list on a separator character.  Like Python
`str.split(sep)`: splitting the empty string yields `[""]`, and adjacent
separators yield empty fields. -/
def split_chars (sep : Char) : List Char → List (List Char)
  | [] => [[]]
  | c :: cs =>
    let r := split_chars sep cs
    if c = sep then [] :: r
    else
      match r with
      | [] => [[c]]
      | h :: t => (c :: h) :: t

/-- Model of Python `str.split(sep)` for a one-character separator. -/
def py_split (s : String) (sep : Char) : List String :=
  (split_chars sep s.data).map (fun l => ⟨l⟩)

/-- Digits-only parse of a character list to a natural number; `none`
when the list is empty or contains a non-digit. -/
def digits_to_nat? (ds : List Char) : Option Nat :=
  if ds = [] then none
  else if ds.all Char.isDigit then
    some (ds.foldl (fun acc c => 10 * acc + (c.toNat - 48)) 0)
  else none

/-- Model of Python `int(s)`: strip whitespace, allow an optional sign,
then require a non-empty digit string; `none` models the `ValueError`
raised otherwise. -/
def py_int? (s : String) : Option Int :=
  let t := ((s.data.dropWhile Char.isWhitespace).reverse.dropWhile Char.isWhitespace).reverse
  match t with
  | '-' :: ds => (digits_to_nat? ds).map (fun n => -(n : Int))
  | '+' :: ds => (digits_to_nat? ds).map (fun n => (n : Int))
  | ds => (digits_to_nat? ds).map (fun n => (n : Int))

/-- One row of the setlist table built by `read_setlist` (source lines
26-31 fix the field positions: index, media name, play speed, start
time, end time). -/
structure Entry where
  index : Int
  media_name : String
  play_speed : Int
  start_time : String
  end_time : String
deriving DecidableEq

/-- `validate_time_format` (source lines 87-95): split on `:`, require
exactly three integer fields with `0 <= HH <= 99`, `0 <= MM < 60`,
`0 <= SS < 60`; a failed `int` conversion yields `False`. -/
def validate_time_format (time_str : String) : Bool :=
  match py_split time_str ':' with
  | [h, m, s] =>
    match py_int? h, py_int? m, py_int? s with
    | some hours, some minutes, some seconds =>
      decide (0 ≤ hours ∧ hours ≤ 99 ∧ 0 ≤ minutes ∧ minutes < 60 ∧ 0 ≤ seconds ∧ seconds < 60)
    | _, _, _ => false
  | _ => false

/-- Outcome of handling one line of the setlist file inside the loop of
`read_setlist` (source lines 50-106).  `skip` is a `continue` (possibly
after printing a per-line diagnostic — console output is not modelled),
`entry` appends a row, and `abort` is the uncaught `ValueError` raised
by `int(elements[0])` at line 64, which escapes to the file-level
`except Exception` handler. -/
inductive LineResult where
  | skip
  | entry (e : Entry)
  | abort
deriving DecidableEq

/-- Processing of one line of the setlist file, following `read_setlist`
(source lines 50-106): strip, skip blank lines, split on `,`, require at
least two fields, parse the index with `int` (unguarded: failure aborts),
default then parse the optional play speed (guarded: failure skips the
line), default the optional times, and validate both time fields. -/
def process_line (line : String) : LineResult :=
  let line := py_strip line
  if line = "" then .skip
  else
    match py_split line ',' with
    | e0 :: e1 :: rest =>
      match py_int? e0 with
      | none => .abort
      | some i =>
        let media_index : Int := i - 1
        let media_name := e1
        let play_speed? : Option Int :=
          match rest[0]? with
          | some sp => py_int? sp
          | none => some 100
        match play_speed? with
        | none => .skip
        | some play_speed =>
          let start_time := (rest[1]?).getD "00:00:00"
          let end_time := (rest[2]?).getD "99:59:59"
          if ¬ validate_time_format start_time then .skip
          else if ¬ validate_time_format end_time then .skip
          else .entry ⟨media_index, media_name, play_speed, start_time, end_time⟩
    | _ => .skip

/-- The accumulation loop of `read_setlist`: `none` models the exception
escaping the loop. -/
def read_setlist_aux : List String → List Entry → Option (List Entry)
  | [], acc => some acc.reverse
  | l :: ls, acc =>
    match process_line l with
    | .skip => read_setlist_aux ls acc
    | .entry e => read_setlist_aux ls (e :: acc)
    | .abort => none

/-- `read_setlist` (source lines 33-115) on the lines of an existing,
readable file: build the table line by line; any exception raised inside
the loop is caught by the trailing `except Exception` handler, which
returns the empty list.  (The `FileNotFoundError` branch concerns the
file system and is outside this model: the input here is the file's
lines.) -/
def read_setlist (lines : List String) : List Entry :=
  (read_setlist_aux lines []).getD []

/-- The basename of a POSIX path: the characters after the last `/`. -/
def basename_chars (s : List Char) : List Char :=
  ((s.reverse).takeWhile (fun c => c ≠ '/')).reverse

/-- Whether a POSIX basename has a non-empty `os.path.splitext`
extension: it contains a `.` that is preceded (within the basename) by
at least one character that is not a `.` (leading dots, as in
`.bashrc`, do not start an extension). -/
def has_ext_chars (base : List Char) : Bool :=
  let afterLastDot := (base.reverse).takeWhile (fun c => c ≠ '.')
  if afterLastDot.length = base.length then false
  else (base.take (base.length - afterLastDot.length - 1)).any (fun c => c ≠ '.')

/-- `test_filename_has_extension` (source lines 200-201):
`bool(os.path.splitext(filename)[1])` under POSIX path rules. -/
def test_filename_has_extension (filename : String) : Bool :=
  has_ext_chars (basename_chars filename.data)

/-- `test_filename_has_fullpath` (source lines 197-198):
`os.path.isabs(filename)` under POSIX path rules. -/
def test_filename_has_fullpath (filename : String) : Bool :=
  match filename.data with
  | [] => false
  | c :: _ => c = '/'

/-- Model of POSIX `os.path.join(a, b)` for two components. -/
def os_path_join (a b : String) : String :=
  if test_filename_has_fullpath b then b
  else if a = "" then a ++ b
  else if a.data.getLast? = some '/' then a ++ b
  else a ++ "/" ++ b

/-- Python truthiness of an optional string argument (`None` and the
empty string are falsy). -/
def truthy (o : Option String) : Bool :=
  match o with
  | none => false
  | some s => s ≠ ""

/-- `resolve_file_path` (source lines 117-132): if the filename has no
extension and a default extension is configured, append it (inserting a
dot when the configured value does not start with one); then, if the
filename is not absolute and a default path is configured, join them. -/
def resolve_file_path (filename : String) (default_path default_ext : Option String) : String :=
  let filename :=
    if ¬ test_filename_has_extension filename then
      if truthy default_ext then
        let ext := default_ext.getD ""
        let filename :=
          if ¬ (ext.data.head? = some '.') then filename ++ "." else filename
        filename ++ ext
      else filename
    else filename
  if ¬ test_filename_has_fullpath filename then
    if truthy default_path then os_path_join (default_path.getD "") filename
    else filename
  else filename

/-- `resolve_setlist_files_path` (source lines 134-146): rebuild each
row, passing only the media name through `resolve_file_path`. -/
def resolve_setlist_files_path (setlist_table : List Entry)
    (default_path default_ext : Option String) : List Entry :=
  match setlist_table with
  | [] => []
  | media :: rest =>
    { index := media.index
      media_name := resolve_file_path media.media_name default_path default_ext
      play_speed := media.play_speed
      start_time := media.start_time
      end_time := media.end_time }
    :: resolve_setlist_files_path rest default_path default_ext

/-- `get_mediadesc_by_index` (source lines 149-154): first entry whose
stored index equals the key, else `None`. -/
def get_mediadesc_by_index (setlist_table : List Entry) (media_index : Int) : Option Entry :=
  match setlist_table with
  | [] => none
  | media_desc :: rest =>
    if media_desc.index == media_index then some media_desc
    else get_mediadesc_by_index rest media_index

/-- Structured result of `decode_midi_message` (source lines 297-343).
The Python function renders a string; this embedding retains exactly the
classification and the payload bytes the string is built from (the note
names, the pitch-bend center offset and the textual formatting are pure
derived views of these fields). -/
inductive MidiEvent where
  | noteOff (channel note velocity : Nat)
  | noteOn (channel note velocity : Nat)
  | polyKeyPressure (channel note pressure : Nat)
  | controlChange (channel controller value : Nat)
  | programChange (channel program : Nat)
  | channelPressure (channel pressure : Nat)
  | pitchBend (channel value : Nat)
  | systemMessage (channel : Nat) (data : List Nat)
  | unknown (command channel : Nat) (data : List Nat)
deriving DecidableEq

/-- The status bytes recognized by the `MIDI_COMMANDS` table (source
lines 277-286). -/
def MIDI_COMMANDS_keys : List Nat :=
  [0x80, 0x90, 0xA0, 0xB0, 0xC0, 0xD0, 0xE0, 0xF0]

/-- `decode_midi_message` (source lines 297-343): the command is the
high nibble of byte 0, the channel its low nibble plus one; the payload
bytes read depend on the command; an unrecognized command keeps the raw
remaining bytes.  `none` models the `IndexError` Python would raise on
a message shorter than its command requires. -/
def decode_midi_message (message : List Nat) : Option MidiEvent :=
  match message[0]? with
  | none => none
  | some status =>
    let command := status &&& 0xF0
    let channel := (status &&& 0x0F) + 1
    if command == 0x80 then
      match message[1]?, message[2]? with
      | some note, some velocity => some (.noteOff channel note velocity)
      | _, _ => none
    else if command == 0x90 then
      match message[1]?, message[2]? with
      | some note, some velocity => some (.noteOn channel note velocity)
      | _, _ => none
    else if command == 0xA0 then
      match message[1]?, message[2]? with
      | some note, some pressure => some (.polyKeyPressure channel note pressure)
      | _, _ => none
    else if command == 0xB0 then
      match message[1]?, message[2]? with
      | some controller, some value => some (.controlChange channel controller value)
      | _, _ => none
    else if command == 0xC0 then
      match message[1]? with
      | some program => some (.programChange channel program)
      | none => none
    else if command == 0xD0 then
      match message[1]? with
      | some pressure => some (.channelPressure channel pressure)
      | none => none
    else if command == 0xE0 then
      match message[1]?, message[2]? with
      | some lsb, some msb => some (.pitchBend channel ((msb <<< 7) ||| lsb))
      | _, _ => none
    else if command == 0xF0 then
      some (.systemMessage channel (message.drop 1))
    else
      some (.unknown command channel (message.drop 1))

/-- Number of bytes (status byte included) that `decode_midi_message`
reads for a given command nibble. -/
def midi_required_length (command : Nat) : Nat :=
  if command == 0x80 || command == 0x90 || command == 0xA0
      || command == 0xB0 || command == 0xE0 then 3
  else if command == 0xC0 || command == 0xD0 then 2
  else 1

/-- `PLAYPAUSE_MODE_PLAYONLY` (source line 763). -/
def PLAYPAUSE_MODE_PLAYONLY : Nat := 0

/-- `PLAYPAUSE_MODE_TOGGLE` (source line 764). -/
def PLAYPAUSE_MODE_TOGGLE : Nat := 1

/-- `PLAYPAUSE_STATUS_PAUSE` (source line 767). -/
def PLAYPAUSE_STATUS_PAUSE : Nat := 0

/-- `PLAYPAUSE_STATUS_PLAY` (source line 768). -/
def PLAYPAUSE_STATUS_PLAY : Nat := 1

/-- Observable effects issued while handling one MIDI message in the
polling loop of `main` (source lines 787-850): calls on `player_main`,
the `time.sleep(5)` grace interval, and the `print` reports (each print
is represented by a constructor carrying the data it formats). -/
inductive PlayerAction where
  | stop
  | play
  | pause
  | loadMedia (path : String)
  | sleepSecs (n : Nat)
  | printMediaDesc (media_desc : Option Entry)
  | printInfoLoading (path : String)
  | printOutOfRange (idx : Nat)
  | printIgnoredUp
  | printIgnoredDown
deriving DecidableEq

/-- The configuration and collaborators the polling loop of `main`
reads but never writes: the resolved setlist, the fallback media file
(`defaultMediaFile`, source lines 571-573), the filesystem oracle for
`check_file_exists`, the listening channel (`midi_channel`, source
lines 717-721), the fixed play/pause mode (source line 765) and the
verbose flag. -/
structure Env where
  resolved_setlist : List Entry
  defaultMediaFile : String
  fileExists : String → Bool
  midi_channel : Int
  cmd_playpause_mode : Nat
  verbose : Bool

/-- The fallback branch of the Program Change handler (source lines
802-808): if the configured fallback media file exists, load it, play
it, sleep five seconds, stop. -/
def pc_fallback_actions (env : Env) : List PlayerAction :=
  if env.fileExists env.defaultMediaFile then
    [.loadMedia env.defaultMediaFile, .play, .sleepSecs 5, .stop]
  else []

/-- Source lines 796-808: a found entry whose file exists is loaded
(with a verbose-only info line); otherwise the fallback branch runs. -/
def pc_media_actions (env : Env) (media_desc : Option Entry) : List PlayerAction :=
  match media_desc with
  | some md =>
    if env.fileExists md.media_name then
      (if env.verbose then [.printInfoLoading md.media_name] else []) ++ [.loadMedia md.media_name]
    else pc_fallback_actions env
  | none => pc_fallback_actions env

/-- The Program Change branch of the polling loop (source lines
787-817): stop and set the status to pause; when the received index is
below the setlist length (the source also tests `>= 0`, vacuous for a
MIDI data byte, hence for `Nat`), look the entry up by key equality and
print the lookup result, then load it or fall back; otherwise print the
out-of-range report; finally stop again and set the status to pause. -/
def handle_pc (env : Env) (playlist_index : Nat) : Nat × List PlayerAction :=
  let inner : List PlayerAction :=
    if playlist_index < env.resolved_setlist.length then
      let media_desc := get_mediadesc_by_index env.resolved_setlist (playlist_index : Int)
      .printMediaDesc media_desc :: pc_media_actions env media_desc
    else [.printOutOfRange playlist_index]
  (PLAYPAUSE_STATUS_PAUSE, (PlayerAction.stop :: inner) ++ [PlayerAction.stop])

/-- The Control Change branch of the polling loop (source lines
819-850), dispatching on `transport_cmd = msg[1]`, the controller byte:
`2` is play or play/pause depending on the mode and current status, `3`
pause, `9` stop, `4` and `5` print ignore reports, anything else does
nothing. -/
def handle_cc (env : Env) (cmd_playpause_status : Nat) (transport_cmd : Nat) :
    Nat × List PlayerAction :=
  if transport_cmd == 2 then
    if env.cmd_playpause_mode == PLAYPAUSE_MODE_TOGGLE then
      if cmd_playpause_status == PLAYPAUSE_STATUS_PAUSE then
        (PLAYPAUSE_STATUS_PLAY, [.play])
      else (PLAYPAUSE_STATUS_PAUSE, [.pause])
    else (PLAYPAUSE_STATUS_PLAY, [.play])
  else if transport_cmd == 3 then (PLAYPAUSE_STATUS_PAUSE, [.pause])
  else if transport_cmd == 9 then (PLAYPAUSE_STATUS_PAUSE, [.stop])
  else if transport_cmd == 4 then (cmd_playpause_status, [.printIgnoredUp])
  else if transport_cmd == 5 then (cmd_playpause_status, [.printIgnoredDown])
  else (cmd_playpause_status, [])

/-- One iteration of the polling loop of `main` on a received raw MIDI
message (source lines 776-850): extract command nibble and 1-based
channel from byte 0, ignore the message unless the channel equals the
configured `midi_channel`, then branch on Program Change (`0xC0`) or
Control Change (`0xB0`); every other command on the listening channel
has no effect.  `none` models the `IndexError` on a message missing the
byte a taken branch reads. -/
def handle_message (env : Env) (cmd_playpause_status : Nat) (msg : List Nat) :
    Option (Nat × List PlayerAction) :=
  match msg[0]? with
  | none => none
  | some b0 =>
    if (((b0 &&& 0x0F) + 1 : Nat) : Int) == env.midi_channel then
      if b0 &&& 0xF0 == 0xC0 then
        match msg[1]? with
        | none => none
        | some playlist_index => some (handle_pc env playlist_index)
      else if b0 &&& 0xF0 == 0xB0 then
        match msg[1]? with
        | none => none
        | some transport_cmd => some (handle_cc env cmd_playpause_status transport_cmd)
      else some (cmd_playpause_status, [])
    else some (cmd_playpause_status, [])

/-- The listening-channel selection of `main` (source lines 717-721):
a truthy `--midi-channel` argument is parsed with `int` (a parse
failure, modelled by `none`, is an uncaught exception); otherwise the
channel silently defaults to `0` after a warning print. -/
def select_midi_channel (arg : Option String) : Option Int :=
  match arg with
  | none => some 0
  | some s => if s = "" then some 0 else py_int? s

/-- A minimal concrete environment: empty setlist, no fallback, no file
exists, listening channel 1, Toggle mode. -/
def env_toggle : Env :=
  { resolved_setlist := []
    defaultMediaFile := ""
    fileExists := fun _ => false
    midi_channel := 1
    cmd_playpause_mode := PLAYPAUSE_MODE_TOGGLE
    verbose := false }

/-- A concrete environment whose one setlist entry carries the sparse
authored key `5`, with a configured fallback media file and a
filesystem oracle on which every file exists. -/
def env_key5 : Env :=
  { resolved_setlist := [⟨5, "five.mp3", 100, "00:00:00", "99:59:59"⟩]
    defaultMediaFile := "fallback.mp3"
    fileExists := fun _ => true
    midi_channel := 1
    cmd_playpause_mode := PLAYPAUSE_MODE_TOGGLE
    verbose := false }

/-- A concrete environment left at the source's silent default
listening channel `0`. -/
def env_default_channel : Env :=
  { resolved_setlist := []
    defaultMediaFile := ""
    fileExists := fun _ => false
    midi_channel := 0
    cmd_playpause_mode := PLAYPAUSE_MODE_TOGGLE
    verbose := false }

theorem handle_message_pc_eq (env : Env) (st : Nat) (msg : List Nat) (b0 p : Nat)
    (h0 : msg[0]? = some b0) (h1 : msg[1]? = some p)
    (hcmd : b0 &&& 0xF0 = 0xC0)
    (hch : env.midi_channel = (((b0 &&& 0x0F) + 1 : Nat) : Int)) :
    handle_message env st msg = some (handle_pc env p) := by
  simp [handle_message, h0, h1, hcmd, hch]

theorem handle_message_cc_eq (env : Env) (st : Nat) (msg : List Nat) (b0 c : Nat)
    (h0 : msg[0]? = some b0) (h1 : msg[1]? = some c)
    (hcmd : b0 &&& 0xF0 = 0xB0)
    (hch : env.midi_channel = (((b0 &&& 0x0F) + 1 : Nat) : Int)) :
    handle_message env st msg = some (handle_cc env st c) := by
  simp [handle_message, h0, h1, hcmd, hch]

/-- Claim C1 as stated is false: the Control Change handler dispatches
on the controller byte `msg[1]`, not on the value byte `msg[2]`.  The
message `[0xB0, 9, 2]` has value byte `2`, so by the claim (Toggle mode,
starting Paused) it would start playback; the code instead reads the
controller byte `9` and stops, leaving the status Paused. -/
theorem C1_counterexample :
    handle_message env_toggle PLAYPAUSE_STATUS_PAUSE [0xB0, 9, 2] =
      some (PLAYPAUSE_STATUS_PAUSE, [PlayerAction.stop]) ∧
    some (PLAYPAUSE_STATUS_PAUSE, [PlayerAction.stop]) ≠
      some ((PLAYPAUSE_STATUS_PLAY : Nat), [PlayerAction.play]) := by
  exact ⟨by decide, by decide⟩

/-- Claim C1 amended: for every Control Change event on the listening
channel the transport action is selected by the controller byte (the
message's second byte), the value byte being ignored: controller `2`
invokes play/pause per the Toggle/PlayOnly mode and flips or sets the
status accordingly, `3` invokes pause and sets the status to Paused,
`9` invokes stop and sets the status to Paused, `4` and `5` are
observable no-ops, and any other controller is a no-op; in Toggle mode
two consecutive controller-`2` events starting from Paused yield
Playing then Paused. -/
theorem C1_cc_dispatch_by_controller_byte (env : Env) (b0 v st c : Nat)
    (hcmd : b0 &&& 0xF0 = 0xB0)
    (hch : env.midi_channel = (((b0 &&& 0x0F) + 1 : Nat) : Int)) :
    (env.cmd_playpause_mode = PLAYPAUSE_MODE_TOGGLE →
      handle_message env PLAYPAUSE_STATUS_PAUSE [b0, 2, v] =
          some (PLAYPAUSE_STATUS_PLAY, [PlayerAction.play]) ∧
      handle_message env PLAYPAUSE_STATUS_PLAY [b0, 2, v] =
          some (PLAYPAUSE_STATUS_PAUSE, [PlayerAction.pause])) ∧
    (env.cmd_playpause_mode ≠ PLAYPAUSE_MODE_TOGGLE →
      handle_message env st [b0, 2, v] =
          some (PLAYPAUSE_STATUS_PLAY, [PlayerAction.play])) ∧
    handle_message env st [b0, 3, v] = some (PLAYPAUSE_STATUS_PAUSE, [PlayerAction.pause]) ∧
    handle_message env st [b0, 9, v] = some (PLAYPAUSE_STATUS_PAUSE, [PlayerAction.stop]) ∧
    handle_message env st [b0, 4, v] = some (st, [PlayerAction.printIgnoredUp]) ∧
    handle_message env st [b0, 5, v] = some (st, [PlayerAction.printIgnoredDown]) ∧
    (c ≠ 2 → c ≠ 3 → c ≠ 9 → c ≠ 4 → c ≠ 5 →
      handle_message env st [b0, c, v] = some (st, [])) := by
  have h2 := handle_message_cc_eq env PLAYPAUSE_STATUS_PAUSE [b0, 2, v] b0 2 rfl rfl hcmd hch
  have h2' := handle_message_cc_eq env PLAYPAUSE_STATUS_PLAY [b0, 2, v] b0 2 rfl rfl hcmd hch
  have h2s := handle_message_cc_eq env st [b0, 2, v] b0 2 rfl rfl hcmd hch
  have h3 := handle_message_cc_eq env st [b0, 3, v] b0 3 rfl rfl hcmd hch
  have h9 := handle_message_cc_eq env st [b0, 9, v] b0 9 rfl rfl hcmd hch
  have h4 := handle_message_cc_eq env st [b0, 4, v] b0 4 rfl rfl hcmd hch
  have h5 := handle_message_cc_eq env st [b0, 5, v] b0 5 rfl rfl hcmd hch
  refine ⟨fun hmode => ⟨?_, ?_⟩, fun hmode => ?_, ?_, ?_, ?_, ?_, ?_⟩
  · rw [h2]; simp [handle_cc, hmode, PLAYPAUSE_MODE_TOGGLE, PLAYPAUSE_STATUS_PAUSE,
      PLAYPAUSE_STATUS_PLAY]
  · rw [h2']; simp [handle_cc, hmode, PLAYPAUSE_MODE_TOGGLE, PLAYPAUSE_STATUS_PAUSE,
      PLAYPAUSE_STATUS_PLAY]
  · rw [h2s]; simp [handle_cc, beq_iff_eq, hmode, PLAYPAUSE_STATUS_PLAY]
  · rw [h3]; simp [handle_cc]
  · rw [h9]; simp [handle_cc]
  · rw [h4]; simp [handle_cc]
  · rw [h5]; simp [handle_cc]
  · intro hc2 hc3 hc9 hc4 hc5
    rw [handle_message_cc_eq env st [b0, c, v] b0 c rfl rfl hcmd hch]
    simp [handle_cc, beq_iff_eq, hc2, hc3, hc9, hc4, hc5]

/-- Closed instance of `C1_cc_dispatch_by_controller_byte` on a
concrete environment: controller `2` toggles from Paused to Playing and
back, controller `9` stops, controller `7` is a no-op. -/
theorem C1_witness :
    handle_message env_toggle PLAYPAUSE_STATUS_PAUSE [0xB0, 2, 0] =
        some (PLAYPAUSE_STATUS_PLAY, [PlayerAction.play]) ∧
    handle_message env_toggle PLAYPAUSE_STATUS_PLAY [0xB0, 2, 0] =
        some (PLAYPAUSE_STATUS_PAUSE, [PlayerAction.pause]) ∧
    handle_message env_toggle PLAYPAUSE_STATUS_PAUSE [0xB0, 9, 0] =
        some (PLAYPAUSE_STATUS_PAUSE, [PlayerAction.stop]) ∧
    handle_message env_toggle PLAYPAUSE_STATUS_PAUSE [0xB0, 7, 0] =
        some (PLAYPAUSE_STATUS_PAUSE, []) := by
  have h := C1_cc_dispatch_by_controller_byte env_toggle 0xB0 0 PLAYPAUSE_STATUS_PAUSE 7
    (by decide) (by decide)
  exact ⟨(h.1 (by decide)).1, (h.1 (by decide)).2, h.2.2.2.1,
    h.2.2.2.2.2.2 (by decide) (by decide) (by decide) (by decide) (by decide)⟩

/-- Claim C2 as stated is false: the Program Change handler bounds-checks
the received program against the length of the resolved setlist before
any lookup.  In an environment whose single entry carries the sparse key
`5` (so the list length is `1`) and whose file exists, the lookup by key
`5` would succeed — yet `ProgramChange(5)` is rejected as out of range
and nothing is loaded. -/
theorem C2_counterexample :
    get_mediadesc_by_index env_key5.resolved_setlist 5 =
      some ⟨5, "five.mp3", 100, "00:00:00", "99:59:59"⟩ ∧
    env_key5.fileExists "five.mp3" = true ∧
    handle_message env_key5 PLAYPAUSE_STATUS_PAUSE [0xC0, 5] =
      some (PLAYPAUSE_STATUS_PAUSE,
        [PlayerAction.stop, PlayerAction.printOutOfRange 5, PlayerAction.stop]) := by
  exact ⟨by decide, by decide, by decide⟩

/-- Claim C2 amended: for every Program Change event on the listening
channel with program number `p`, the handler first checks
`p < length(resolved setlist)`; only within that bound is the setlist
entry looked up, by key equality on the stored index (first entry whose
key equals `p`, i.e. `List.find?`); a `p` at or beyond the list length —
such as a sparse authored key outside the dense range — is reported as
out of range with no lookup attempt. -/
theorem C2_lookup_after_bounds_check (env : Env) (st b0 p : Nat)
    (hcmd : b0 &&& 0xF0 = 0xC0)
    (hch : env.midi_channel = (((b0 &&& 0x0F) + 1 : Nat) : Int)) :
    (p < env.resolved_setlist.length →
      handle_message env st [b0, p] =
        some (PLAYPAUSE_STATUS_PAUSE,
          (PlayerAction.stop ::
            PlayerAction.printMediaDesc (get_mediadesc_by_index env.resolved_setlist (p : Int)) ::
            pc_media_actions env (get_mediadesc_by_index env.resolved_setlist (p : Int))) ++
          [PlayerAction.stop])) ∧
    (env.resolved_setlist.length ≤ p →
      handle_message env st [b0, p] =
        some (PLAYPAUSE_STATUS_PAUSE,
          [PlayerAction.stop, PlayerAction.printOutOfRange p, PlayerAction.stop])) ∧
    (∀ (table : List Entry) (k : Int),
      get_mediadesc_by_index table k = table.find? (fun e => e.index == k)) := by
  have hpc := handle_message_pc_eq env st [b0, p] b0 p rfl rfl hcmd hch
  refine ⟨fun hlt => ?_, fun hge => ?_, fun table k => ?_⟩
  · rw [hpc]; simp [handle_pc, hlt]
  · have hnlt : ¬ p < env.resolved_setlist.length := by omega
    rw [hpc]; simp [handle_pc, hnlt]
  · induction table with
    | nil => rfl
    | cons a l ih =>
      simp only [get_mediadesc_by_index, List.find?]
      cases h : a.index == k <;> simp [h, ih]

/-- Closed instance of `C2_lookup_after_bounds_check`: in `env_key5`
(one entry, key `5`), program `0` is within bounds and resolved through
the key-equality lookup. -/
theorem C2_witness :
    handle_message env_key5 PLAYPAUSE_STATUS_PAUSE [0xC0, 0] =
      some (PLAYPAUSE_STATUS_PAUSE,
        (PlayerAction.stop ::
          PlayerAction.printMediaDesc (get_mediadesc_by_index env_key5.resolved_setlist ((0 : Nat) : Int)) ::
          pc_media_actions env_key5 (get_mediadesc_by_index env_key5.resolved_setlist ((0 : Nat) : Int))) ++
        [PlayerAction.stop]) :=
  (C2_lookup_after_bounds_check env_key5 PLAYPAUSE_STATUS_PAUSE 0xC0 0
    (by decide) (by decide)).1 (by decide)

/-- Claim C3 as stated is false: an unspecified listening channel
defaults to `0`, not `1`, and a Control Change arriving on channel 1 is
ignored under that default. -/
theorem C3_counterexample :
    select_midi_channel none = some 0 ∧
    select_midi_channel none ≠ some 1 ∧
    handle_message env_default_channel PLAYPAUSE_STATUS_PAUSE [0xB0, 2, 0] =
      some (PLAYPAUSE_STATUS_PAUSE, []) := by
  exact ⟨rfl, by decide, by decide⟩

/-- Claim C3 amended: if the listening MIDI channel is unspecified in
the configuration it silently defaults to channel `0`; since decoded
event channels are always in `1..16`, the default channel can never
match an incoming event, so every message is ignored. -/
theorem C3_default_channel_zero_never_matches (env : Env) (st : Nat) (msg : List Nat) (b0 : Nat)
    (h0 : msg[0]? = some b0) (hch : env.midi_channel = 0) :
    select_midi_channel none = some 0 ∧
    1 ≤ (b0 &&& 0x0F) + 1 ∧ (b0 &&& 0x0F) + 1 ≤ 16 ∧
    handle_message env st msg = some (st, []) := by
  have hle : b0 &&& 0x0F ≤ 15 := Nat.and_le_right
  refine ⟨rfl, by omega, by omega, ?_⟩
  have hne : ¬ ((((b0 &&& 0x0F : Nat) : Int) + 1) = env.midi_channel) := by
    rw [hch]
    intro h
    omega
  simp [handle_message, h0, hne]

/-- Closed instance of `C3_default_channel_zero_never_matches`: under
the default channel `0`, a play command on channel 1 does nothing. -/
theorem C3_witness :
    select_midi_channel none = some 0 ∧
    1 ≤ (0xB0 &&& 0x0F) + 1 ∧ (0xB0 &&& 0x0F) + 1 ≤ 16 ∧
    handle_message env_default_channel PLAYPAUSE_STATUS_PAUSE [0xB0, 2, 0] =
      some (PLAYPAUSE_STATUS_PAUSE, []) :=
  C3_default_channel_zero_never_matches env_default_channel PLAYPAUSE_STATUS_PAUSE
    [0xB0, 2, 0] 0xB0 rfl (by decide)

/-- Claim C4 fails on the code (the claim matches the code's own
per-line error-handling design, so the code is the slip): the index
field is converted with an unguarded `int(elements[0])` (source line
64), so a non-integer index raises a `ValueError` that escapes to the
file-level `except Exception` handler (source line 113), which returns
the empty list — aborting the whole parse and discarding every valid
entry from the other lines.  Parsed alone, the valid line yields its
entry. -/
theorem C4_bad_index_aborts_parse :
    process_line "x,Media" = LineResult.abort ∧
    read_setlist ["x,Media", "1,Song"] = [] ∧
    read_setlist ["1,Song"] = [⟨0, "Song", 100, "00:00:00", "99:59:59"⟩] := by
  exact ⟨by decide, by decide, by decide⟩

/-- Claim C5 as stated is false: `validate_time_format` accepts hours
up to `99` (the stored invariant is `0 <= HH <= 99`), so `"24:00:00"`
validates. -/
theorem C5_counterexample : validate_time_format "24:00:00" = true := by decide

/-- Claim C5 amended: the time-format validation accepts `"23:59:59"`
and also `"24:00:00"` (hours are only bounded by `99`); it rejects each
of `"100:00:00"`, `"12:60:00"`, `"12:00:60"`, and `"12:00"` (wrong
field count). -/
theorem C5_time_validation_boundaries :
    validate_time_format "23:59:59" = true ∧
    validate_time_format "24:00:00" = true ∧
    validate_time_format "99:59:59" = true ∧
    validate_time_format "100:00:00" = false ∧
    validate_time_format "12:60:00" = false ∧
    validate_time_format "12:00:60" = false ∧
    validate_time_format "12:00" = false := by
  exact ⟨by decide, by decide, by decide, by decide, by decide, by decide, by decide⟩

/-- Claim C6 as stated is false: the fallback-media branch lives inside
the bounds check, so a program number at or beyond the setlist length —
a "not found" selection — never triggers the fallback, even when the
configured fallback media file exists.  In `env_key5` every file exists
and a fallback is configured, yet `ProgramChange(99)` only reports out
of range: no fallback is loaded, played, or given the grace interval. -/
theorem C6_counterexample :
    env_key5.fileExists env_key5.defaultMediaFile = true ∧
    get_mediadesc_by_index env_key5.resolved_setlist 99 = none ∧
    handle_message env_key5 PLAYPAUSE_STATUS_PAUSE [0xC0, 99] =
      some (PLAYPAUSE_STATUS_PAUSE,
        [PlayerAction.stop, PlayerAction.printOutOfRange 99, PlayerAction.stop]) ∧
    PlayerAction.play ∉
      [PlayerAction.stop, PlayerAction.printOutOfRange 99, PlayerAction.stop] := by
  exact ⟨by decide, by decide, by decide, by decide⟩

/-- Claim C6 amended: the fallback policy applies only to a Program
Change whose program `p` passes the bounds check
`p < length(resolved setlist)`: within bounds, when the key lookup finds
no entry or the found entry's file does not exist, the configured
fallback media is loaded, played and stopped after the fixed 5-second
grace interval if it exists, and otherwise the player is simply left
stopped; a `p` at or beyond the list length is reported out of range
with no fallback at all, even when fallback media is configured and
present. -/
theorem C6_fallback_policy (env : Env) (st b0 p : Nat)
    (hcmd : b0 &&& 0xF0 = 0xC0)
    (hch : env.midi_channel = (((b0 &&& 0x0F) + 1 : Nat) : Int)) :
    (p < env.resolved_setlist.length →
      (get_mediadesc_by_index env.resolved_setlist (p : Int) = none ∨
        (∃ md, get_mediadesc_by_index env.resolved_setlist (p : Int) = some md ∧
          env.fileExists md.media_name = false)) →
      handle_message env st [b0, p] =
        some (PLAYPAUSE_STATUS_PAUSE,
          (PlayerAction.stop ::
            PlayerAction.printMediaDesc (get_mediadesc_by_index env.resolved_setlist (p : Int)) ::
            pc_fallback_actions env) ++ [PlayerAction.stop])) ∧
    (env.resolved_setlist.length ≤ p →
      handle_message env st [b0, p] =
        some (PLAYPAUSE_STATUS_PAUSE,
          [PlayerAction.stop, PlayerAction.printOutOfRange p, PlayerAction.stop])) ∧
    (env.fileExists env.defaultMediaFile = true →
      pc_fallback_actions env =
        [PlayerAction.loadMedia env.defaultMediaFile, PlayerAction.play,
         PlayerAction.sleepSecs 5, PlayerAction.stop]) ∧
    (env.fileExists env.defaultMediaFile = false → pc_fallback_actions env = []) := by
  have hpc := handle_message_pc_eq env st [b0, p] b0 p rfl rfl hcmd hch
  refine ⟨fun hlt hmiss => ?_, fun hge => ?_, fun hex => ?_, fun hex => ?_⟩
  · rw [hpc]
    rcases hmiss with hnone | ⟨md, hmd, hnofile⟩
    · simp [handle_pc, hlt, hnone, pc_media_actions]
    · simp [handle_pc, hlt, hmd, pc_media_actions, hnofile]
  · have hnlt : ¬ p < env.resolved_setlist.length := by omega
    rw [hpc]; simp [handle_pc, hnlt]
  · simp [pc_fallback_actions, hex]
  · simp [pc_fallback_actions, hex]

/-- Closed instance of `C6_fallback_policy`: in `env_key5`, program `0`
is within bounds but finds no entry with key `0`, so the existing
fallback media is loaded, played, held for the 5-second grace interval,
and stopped. -/
theorem C6_witness :
    handle_message env_key5 PLAYPAUSE_STATUS_PAUSE [0xC0, 0] =
      some (PLAYPAUSE_STATUS_PAUSE,
        (PlayerAction.stop ::
          PlayerAction.printMediaDesc (get_mediadesc_by_index env_key5.resolved_setlist ((0 : Nat) : Int)) ::
          pc_fallback_actions env_key5) ++ [PlayerAction.stop]) ∧
    pc_fallback_actions env_key5 =
      [PlayerAction.loadMedia env_key5.defaultMediaFile, PlayerAction.play,
       PlayerAction.sleepSecs 5, PlayerAction.stop] := by
  have h := C6_fallback_policy env_key5 PLAYPAUSE_STATUS_PAUSE 0xC0 0 (by decide) (by decide)
  exact ⟨h.1 (by decide) (Or.inl (by decide)), h.2.2.1 (by decide)⟩

/-- Claim C7: after handling any Program Change event on the listening
channel — whatever the program number, whether the entry is found,
missing, or out of range, and whether or not fallback media is played —
the transport status is always Paused, the handler's first player call
is a stop, and its last player call is a stop (a selected track is
loaded armed, never left playing). -/
theorem C7_pc_always_paused_stopped (env : Env) (st : Nat) (msg : List Nat) (b0 p : Nat)
    (h0 : msg[0]? = some b0) (h1 : msg[1]? = some p)
    (hcmd : b0 &&& 0xF0 = 0xC0)
    (hch : env.midi_channel = (((b0 &&& 0x0F) + 1 : Nat) : Int)) :
    ∃ acts, handle_message env st msg = some (PLAYPAUSE_STATUS_PAUSE, acts) ∧
      acts.head? = some PlayerAction.stop ∧
      acts.getLast? = some PlayerAction.stop := by
  rw [handle_message_pc_eq env st msg b0 p h0 h1 hcmd hch]
  refine ⟨(PlayerAction.stop ::
      (if p < env.resolved_setlist.length then
        PlayerAction.printMediaDesc (get_mediadesc_by_index env.resolved_setlist (p : Int)) ::
          pc_media_actions env (get_mediadesc_by_index env.resolved_setlist (p : Int))
      else [PlayerAction.printOutOfRange p])) ++ [PlayerAction.stop], rfl, rfl, ?_⟩
  exact List.getLast?_concat _

/-- Closed instance of `C7_pc_always_paused_stopped` at a concrete
environment and message. -/
theorem C7_witness :
    ∃ acts, handle_message env_key5 PLAYPAUSE_STATUS_PAUSE [0xC0, 0] =
        some (PLAYPAUSE_STATUS_PAUSE, acts) ∧
      acts.head? = some PlayerAction.stop ∧
      acts.getLast? = some PlayerAction.stop :=
  C7_pc_always_paused_stopped env_key5 PLAYPAUSE_STATUS_PAUSE [0xC0, 0] 0xC0 0
    rfl rfl (by decide) (by decide)

/-- Claim C9: path resolution is the identity on already-complete
names — for every media name that is an absolute path and whose final
segment has an extension, and for every configured default directory
and default extension (including none), `resolve_file_path` returns the
name unchanged. -/
theorem C9_resolve_identity_on_complete_names (filename : String)
    (hext : test_filename_has_extension filename = true)
    (habs : test_filename_has_fullpath filename = true) :
    ∀ default_path default_ext : Option String,
      resolve_file_path filename default_path default_ext = filename := by
  intro default_path default_ext
  simp [resolve_file_path, hext, habs]

/-- Closed instance of `C9_resolve_identity_on_complete_names` on an
absolute, extensioned name against both configured and absent
defaults. -/
theorem C9_witness :
    test_filename_has_extension "/music/track.mp3" = true ∧
    test_filename_has_fullpath "/music/track.mp3" = true ∧
    resolve_file_path "/music/track.mp3" (some "/other") (some "ogg") = "/music/track.mp3" ∧
    resolve_file_path "/music/track.mp3" none none = "/music/track.mp3" :=
  ⟨by decide, by decide,
    C9_resolve_identity_on_complete_names "/music/track.mp3" (by decide) (by decide)
      (some "/other") (some "ogg"),
    C9_resolve_identity_on_complete_names "/music/track.mp3" (by decide) (by decide)
      none none⟩

/-- Claim C10: for every setlist table and every choice of defaults,
`resolve_setlist_files_path` returns a list of the same length and
order in which, for each entry, the index, play speed, start time and
end time are unchanged and only the media name is rewritten (through
`resolve_file_path`). -/
theorem C10_resolve_preserves_frame (setlist_table : List Entry)
    (default_path default_ext : Option String) :
    (resolve_setlist_files_path setlist_table default_path default_ext).length =
        setlist_table.length ∧
    ∀ i : Nat, i < setlist_table.length →
      ∃ e e', setlist_table[i]? = some e ∧
        (resolve_setlist_files_path setlist_table default_path default_ext)[i]? = some e' ∧
        e'.index = e.index ∧ e'.play_speed = e.play_speed ∧
        e'.start_time = e.start_time ∧ e'.end_time = e.end_time ∧
        e'.media_name = resolve_file_path e.media_name default_path default_ext := by
  induction setlist_table with
  | nil =>
    refine ⟨rfl, fun i hi => ?_⟩
    simp at hi
  | cons a l ih =>
    refine ⟨by simpa [resolve_setlist_files_path] using ih.1, fun i hi => ?_⟩
    cases i with
    | zero =>
      refine ⟨a, ⟨a.index, resolve_file_path a.media_name default_path default_ext,
        a.play_speed, a.start_time, a.end_time⟩, ?_, ?_, rfl, rfl, rfl, rfl, rfl⟩
      · simp
      · simp [resolve_setlist_files_path]
    | succ n =>
      have hn : n < l.length := by simpa using hi
      obtain ⟨e, e', he, he', hrest⟩ := ih.2 n hn
      exact ⟨e, e', by simpa using he, by simpa [resolve_setlist_files_path] using he', hrest⟩

/-- Closed instance of `C10_resolve_preserves_frame` on a singleton
table with configured defaults. -/
theorem C10_witness :
    ∃ e e', ([⟨7, "track", 95, "00:01:00", "00:03:00"⟩] : List Entry)[0]? = some e ∧
      (resolve_setlist_files_path [⟨7, "track", 95, "00:01:00", "00:03:00"⟩]
        (some "/media") (some "mp3"))[0]? = some e' ∧
      e'.index = e.index ∧ e'.play_speed = e.play_speed ∧
      e'.start_time = e.start_time ∧ e'.end_time = e.end_time ∧
      e'.media_name = resolve_file_path e.media_name (some "/media") (some "mp3") :=
  (C10_resolve_preserves_frame [⟨7, "track", 95, "00:01:00", "00:03:00"⟩]
    (some "/media") (some "mp3")).2 0 (by decide)

theorem exists_getElem_some {α : Type} (l : List α) (i : Nat) (h : i < l.length) :
    ∃ a, l[i]? = some a := ⟨_, List.getElem?_eq_getElem h⟩

/-- Claim C8: MIDI decoding is total on well-formed input — for every
byte sequence whose status byte exists and whose length covers the
payload its command kind requires, `decode_midi_message` produces an
event rather than failing; and an unrecognized status byte (high nibble
outside the `MIDI_COMMANDS` table) degrades to `unknown` with the raw
remaining bytes retained. -/
theorem C8_decode_total_unknown_degrades (message : List Nat) (status : Nat)
    (h0 : message[0]? = some status)
    (hlen : midi_required_length (status &&& 0xF0) ≤ message.length) :
    (∃ e, decode_midi_message message = some e) ∧
    ((status &&& 0xF0) ∉ MIDI_COMMANDS_keys →
      decode_midi_message message =
        some (MidiEvent.unknown (status &&& 0xF0) ((status &&& 0x0F) + 1)
          (message.drop 1))) := by
  by_cases h80 : status &&& 0xF0 = 0x80
  · have hl : 3 ≤ message.length := by simpa [midi_required_length, h80] using hlen
    obtain ⟨n1, h1⟩ := exists_getElem_some message 1 (by omega)
    obtain ⟨n2, h2⟩ := exists_getElem_some message 2 (by omega)
    refine ⟨⟨MidiEvent.noteOff ((status &&& 0x0F) + 1) n1 n2, ?_⟩,
      fun hmem => absurd (by simp [MIDI_COMMANDS_keys, h80]) hmem⟩
    simp [decode_midi_message, h0, h80, h1, h2]
  by_cases h90 : status &&& 0xF0 = 0x90
  · have hl : 3 ≤ message.length := by simpa [midi_required_length, h90] using hlen
    obtain ⟨n1, h1⟩ := exists_getElem_some message 1 (by omega)
    obtain ⟨n2, h2⟩ := exists_getElem_some message 2 (by omega)
    refine ⟨⟨MidiEvent.noteOn ((status &&& 0x0F) + 1) n1 n2, ?_⟩,
      fun hmem => absurd (by simp [MIDI_COMMANDS_keys, h90]) hmem⟩
    simp [decode_midi_message, h0, h90, h1, h2]
  by_cases hA0 : status &&& 0xF0 = 0xA0
  · have hl : 3 ≤ message.length := by simpa [midi_required_length, hA0] using hlen
    obtain ⟨n1, h1⟩ := exists_getElem_some message 1 (by omega)
    obtain ⟨n2, h2⟩ := exists_getElem_some message 2 (by omega)
    refine ⟨⟨MidiEvent.polyKeyPressure ((status &&& 0x0F) + 1) n1 n2, ?_⟩,
      fun hmem => absurd (by simp [MIDI_COMMANDS_keys, hA0]) hmem⟩
    simp [decode_midi_message, h0, hA0, h1, h2]
  by_cases hB0 : status &&& 0xF0 = 0xB0
  · have hl : 3 ≤ message.length := by simpa [midi_required_length, hB0] using hlen
    obtain ⟨n1, h1⟩ := exists_getElem_some message 1 (by omega)
    obtain ⟨n2, h2⟩ := exists_getElem_some message 2 (by omega)
    refine ⟨⟨MidiEvent.controlChange ((status &&& 0x0F) + 1) n1 n2, ?_⟩,
      fun hmem => absurd (by simp [MIDI_COMMANDS_keys, hB0]) hmem⟩
    simp [decode_midi_message, h0, hB0, h1, h2]
  by_cases hC0 : status &&& 0xF0 = 0xC0
  · have hl : 2 ≤ message.length := by simpa [midi_required_length, hC0] using hlen
    obtain ⟨n1, h1⟩ := exists_getElem_some message 1 (by omega)
    refine ⟨⟨MidiEvent.programChange ((status &&& 0x0F) + 1) n1, ?_⟩,
      fun hmem => absurd (by simp [MIDI_COMMANDS_keys, hC0]) hmem⟩
    simp [decode_midi_message, h0, hC0, h1]
  by_cases hD0 : status &&& 0xF0 = 0xD0
  · have hl : 2 ≤ message.length := by simpa [midi_required_length, hD0] using hlen
    obtain ⟨n1, h1⟩ := exists_getElem_some message 1 (by omega)
    refine ⟨⟨MidiEvent.channelPressure ((status &&& 0x0F) + 1) n1, ?_⟩,
      fun hmem => absurd (by simp [MIDI_COMMANDS_keys, hD0]) hmem⟩
    simp [decode_midi_message, h0, hD0, h1]
  by_cases hE0 : status &&& 0xF0 = 0xE0
  · have hl : 3 ≤ message.length := by simpa [midi_required_length, hE0] using hlen
    obtain ⟨n1, h1⟩ := exists_getElem_some message 1 (by omega)
    obtain ⟨n2, h2⟩ := exists_getElem_some message 2 (by omega)
    refine ⟨⟨MidiEvent.pitchBend ((status &&& 0x0F) + 1) ((n2 <<< 7) ||| n1), ?_⟩,
      fun hmem => absurd (by simp [MIDI_COMMANDS_keys, hE0]) hmem⟩
    simp [decode_midi_message, h0, hE0, h1, h2]
  by_cases hF0 : status &&& 0xF0 = 0xF0
  · refine ⟨⟨MidiEvent.systemMessage ((status &&& 0x0F) + 1) (message.drop 1), ?_⟩,
      fun hmem => absurd (by simp [MIDI_COMMANDS_keys, hF0]) hmem⟩
    simp [decode_midi_message, h0, hF0]
  · have hdec : decode_midi_message message =
        some (MidiEvent.unknown (status &&& 0xF0) ((status &&& 0x0F) + 1)
          (message.drop 1)) := by
      simp [decode_midi_message, h0, beq_iff_eq, h80, h90, hA0, hB0, hC0, hD0, hE0, hF0]
    exact ⟨⟨_, hdec⟩, fun _ => hdec⟩

/-- Closed instance of `C8_decode_total_unknown_degrades`: a well-formed
Note On decodes to an event, and a data-range status byte `0x45`
degrades to `unknown` keeping the remaining raw bytes. -/
theorem C8_witness :
    (∃ e, decode_midi_message [0x90, 60, 100] = some e) ∧
    decode_midi_message [0x45, 7] = some (MidiEvent.unknown 0x40 6 [7]) :=
  ⟨(C8_decode_total_unknown_degrades [0x90, 60, 100] 0x90 (by decide) (by decide)).1,
    (C8_decode_total_unknown_degrades [0x45, 7] 0x45 (by decide) (by decide)).2 (by decide)⟩
